import Mathlib

/-!
Shallow embedding of the photo-sharing web application
(src/webapp/python/app.py) and verification of the specification claims.

Conventions of the embedding:
* Database rows become Lean structures (`User`, `Post`, `Comment`); the three
  SQL tables become lists inside `DB`.  `fetchone` of a `SELECT ... WHERE p`
  becomes `List.find?`; a `WHERE`-filtered `fetchall` becomes `List.filter`.
* The Flask session is a record holding the two keys the application ever
  stores: `user` (the stored mapping holds the user id) and `csrf_token`.
  A key that may be absent is an `Option`.
* Each request handler becomes a function from the database, the session and
  the submitted form to a `Response` (plus the updated database / session when
  the handler writes).  An uncaught Python exception (TypeError, ValueError,
  KeyError, or a view returning None) is modelled as `Response.error`, which
  the hosting framework turns into a generic 500 - distinct from every
  deliberate response.
* `digest` shells out to openssl sha512; it is modelled as an abstract
  `String → String` parameter threaded through the functions that hash.
* Randomness (`os.urandom(8).hex()`) and auto-increment ids are modelled as
  explicit parameters (`fresh_token`, `next_id`).
-/

/-- Raw image bytes, one `Nat` per byte value. -/
abbrev Bytes := List Nat

/-- Row of the `users` table. -/
structure User where
  id : Nat
  account_name : String
  passhash : String
  authority : Nat
  del_flg : Nat
  created_at : Nat
deriving Repr, DecidableEq

/-- Row of the `posts` table. -/
structure Post where
  id : Nat
  user_id : Nat
  mime : String
  imgdata : Bytes
  body : String
  created_at : Nat
deriving Repr, DecidableEq

/-- Row of the `comments` table. -/
structure Comment where
  id : Nat
  post_id : Nat
  user_id : Nat
  comment : String
  created_at : Nat
deriving Repr, DecidableEq

/-- The relational store: the three tables the application touches. -/
structure DB where
  users : List User
  posts : List Post
  comments : List Comment
deriving Repr, DecidableEq

/-- The Flask session record.  The application only ever stores
`session["user"] =, the session user id wrapped in a mapping,` and
`session["csrf_token"]`; either key may be absent. -/
structure Session where
  user : Option Nat
  csrf_token : Option String
deriving Repr, DecidableEq

/-- An uploaded file: its declared content type and its bytes.
`tempf.tell()` after `file.save(tempf)` equals `content.length`. -/
structure FileUpload where
  mimetype : String
  content : Bytes
deriving Repr, DecidableEq

/-- The submitted form fields read by the handlers under study. -/
structure Form where
  csrf_token : String
  account_name : String
  password : String
  post_id : String
  comment : String
  body : String
  file : Option FileUpload
  uid : List Nat
deriving Repr, DecidableEq

/-- Comment enriched with its author row (`comment["user"]`). -/
structure CommentView where
  comment : Comment
  user : Option User
deriving Repr, DecidableEq

/-- Post enriched by `make_posts`: owner row, kept comments, comment count. -/
structure PostView where
  post : Post
  user : Option User
  comments : List CommentView
  comment_count : Nat
deriving Repr, DecidableEq

/-- Outcome of a request handler. -/
inductive Response where
  | redirect : String → Response
  | abort : Nat → Response
  | text : String → Response
  | imageData : String → Bytes → Response
  | renderPost : PostView → Option User → Response
  | error : String → Response
deriving Repr, DecidableEq

/-- UPLOAD_LIMIT = 10 * 1024 * 1024 (app.py line 16). -/
def UPLOAD_LIMIT : Nat := 10 * 1024 * 1024

/-- Character class [0-9a-zA-Z] of the account-name regex. -/
def isAlnumChar (c : Char) : Bool :=
  (decide (48 ≤ c.toNat) && decide (c.toNat ≤ 57)) ||
  (decide (97 ≤ c.toNat) && decide (c.toNat ≤ 122)) ||
  (decide (65 ≤ c.toNat) && decide (c.toNat ≤ 90))

/-- Character class [0-9a-zA-Z_] of the password regex (95 is the underscore). -/
def isPassChar (c : Char) : Bool :=
  isAlnumChar c || decide (c.toNat = 95)

/-- Character class [0-9]. -/
def isDigitChar (c : Char) : Bool :=
  decide (48 ≤ c.toNat) && decide (c.toNat ≤ 57)

/-- Semantics of the UNANCHORED Python `re.match` of a character-class
repetition with lower bound `n` (patterns like [0-9a-zA-Z]{3,} or [0-9]+,
which is {1,}): the match is tried only at the start of the string and
succeeds iff at least the first `n` characters are in the class.  Characters
after the matched prefix are unconstrained because the pattern has no `$`
anchor. -/
def re_match_min (p : Char → Bool) (n : Nat) (s : String) : Bool :=
  decide (n ≤ s.length) && (s.toList.take n).all p

/-- validate_user (app.py lines 97-102): unanchored regex checks
[0-9a-zA-Z]{3,} on the account name and [0-9a-zA-Z_]{6,} on the password. -/
def validate_user (account_name password : String) : Bool :=
  re_match_min isAlnumChar 3 account_name && re_match_min isPassChar 6 password

/-- calculate_salt (app.py lines 115-116). -/
def calculate_salt (digest : String → String) (account_name : String) : String :=
  digest account_name

/-- calculate_passhash (app.py lines 119-120):
digest("%s:%s" % (password, salt)). -/
def calculate_passhash (digest : String → String) (account_name password : String) : String :=
  digest (password ++ ":" ++ calculate_salt digest account_name)

/-- get_session_user (app.py lines 123-129).  Note the SQL is
SELECT * FROM users WHERE id = %s - there is NO del_flg filter;
with no session entry, or with no matching row, the result is none. -/
def get_session_user (db : DB) (sess : Session) : Option User :=
  match sess.user with
  | some uid => db.users.find? (fun u => decide (u.id = uid))
  | none => none

/-- try_login (app.py lines 85-94): first row with the account name and
del_flg = 0, accepted iff the recomputed passhash equals the stored one. -/
def try_login (digest : String → String) (db : DB) (account_name password : String) : Option User :=
  match db.users.find? (fun u => decide (u.account_name = account_name) && decide (u.del_flg = 0)) with
  | some user =>
      if calculate_passhash digest user.account_name password = user.passhash then some user
      else none
  | none => none

example : validate_user "abc" "secret" = true := by decide
example : validate_user "abc!" "secret123" = true := by decide
example : validate_user "ab" "secret123" = false := by decide
example : validate_user "abc" "abc1_" = false := by decide
example : re_match_min isDigitChar 1 "123abc" = true := by decide
example : re_match_min isDigitChar 1 "x123" = false := by decide

/-- Ordering of the comment query ORDER BY post_id, created_at DESC:
`a` may come before `b` iff a.post_id is smaller, or equal with a.created_at
not older.  The SQL engine is out of scope; any sort satisfying the ORDER BY
is a faithful model and we fix insertion sort below. -/
def commentLe (a b : Comment) : Bool :=
  decide (a.post_id < b.post_id) ||
  (decide (a.post_id = b.post_id) && decide (b.created_at ≤ a.created_at))

/-- Insert a comment into a list already sorted by `le`. -/
def insertSorted (le : Comment → Comment → Bool) (c : Comment) : List Comment → List Comment
  | [] => [c]
  | x :: xs => if le c x then c :: x :: xs else x :: insertSorted le c xs

/-- Insertion sort used to model the ORDER BY clause. -/
def sortComments (le : Comment → Comment → Bool) : List Comment → List Comment
  | [] => []
  | x :: xs => insertSorted le x (sortComments le xs)

/-- Step 1 of make_posts (app.py lines 142-164): the single comment query
SELECT * FROM comments WHERE post_id IN post_ids
ORDER BY post_id, created_at DESC LIMIT k, where k is 20 when all_comments
and min(3 * number of posts, 20) otherwise. -/
def related_comments (db : DB) (results : List Post) (all_comments : Bool) : List Comment :=
  let post_ids := results.map Post.id
  let limit_count := if all_comments then 20 else min (post_ids.length * 3) 20
  (sortComments commentLe (db.comments.filter (fun c => post_ids.contains c.post_id))).take limit_count

/-- The deduplicated union of post-owner ids and comment-author ids
(app.py lines 138, 167, 170). -/
def gathered_user_ids (db : DB) (results : List Post) (all_comments : Bool) : List Nat :=
  ((results.map Post.user_id).dedup ++
   ((related_comments db results all_comments).map Comment.user_id).dedup).dedup

/-- Step 2 of make_posts (app.py lines 169-177): the single user query
SELECT * FROM users WHERE id IN all_user_ids, loaded into a map keyed by id.
Rows keep table order; ids are primary keys so the first match is the map
entry. -/
def fetched_users (db : DB) (results : List Post) (all_comments : Bool) : List User :=
  db.users.filter (fun u => (gathered_user_ids db results all_comments).contains u.id)

/-- users_by_id.get(uid) - lookup in the batch-fetched user map. -/
def findUser (users : List User) (uid : Nat) : Option User :=
  users.find? (fun u => decide (u.id = uid))

/-- Steps 3-4 of make_posts for one post (app.py lines 179-204): its comments
are the related comments with this post_id in query order, the first 3 kept
unless all_comments, reversed back to chronological order, each with its
author attached; comment_count counts every related comment of the post. -/
def build_view (db : DB) (results : List Post) (all_comments : Bool) (p : Post) : PostView :=
  let users_by_id := fetched_users db results all_comments
  let mine := (related_comments db results all_comments).filter (fun c => decide (c.post_id = p.id))
  let kept := if all_comments then mine else mine.take 3
  { post := p
    user := findUser users_by_id p.user_id
    comments := kept.reverse.map (fun c => { comment := c, user := findUser users_by_id c.user_id })
    comment_count := mine.length }

/-- Filter of app.py line 207: keep the post iff its owner was found in the
user map and that owner's del_flg is falsy (= 0). -/
def keep_post (pv : PostView) : Bool :=
  match pv.user with
  | some u => decide (u.del_flg = 0)
  | none => false

/-- Number of SQL queries make_posts issues (app.py lines 133-134, 163, 172-175):
none when the input is empty (early return), otherwise the comment query plus
the user query, the latter skipped when the gathered id list is empty. -/
def make_posts_query_count (db : DB) (results : List Post) (all_comments : Bool) : Nat :=
  if results.isEmpty then 0
  else 1 + (if (gathered_user_ids db results all_comments).isEmpty then 0 else 1)

/-- make_posts (app.py lines 132-210): the assembled post views in input
order, paired with the number of storage queries issued. -/
def make_posts (db : DB) (results : List Post) (all_comments : Bool) : List PostView × Nat :=
  (if results.isEmpty then []
   else (results.map (build_view db results all_comments)).filter keep_post,
   make_posts_query_count db results all_comments)

/-- Result rows of SELECT p.* FROM posts p JOIN users u ON p.user_id = u.id
WHERE p.id = %s AND u.del_flg = 0 (app.py lines 441-446): each post with the
requested id, once per joined user row with matching id and del_flg = 0. -/
def post_rows_by_id (db : DB) (pid : Nat) : List Post :=
  (db.posts.filter (fun p => decide (p.id = pid))).flatMap
    (fun p => (db.users.filter (fun u => decide (u.id = p.user_id) && decide (u.del_flg = 0))).map
      (fun _ => p))

/-- get_posts_id, GET /posts/[id] (app.py lines 437-452): the joined rows
assembled with all_comments=True; 404 when the assembly is empty, otherwise
the first view rendered together with the session user.  The route id is
modelled after route matching as a Nat. -/
def get_posts_id (db : DB) (sess : Session) (pid : Nat) : Response :=
  match (make_posts db (post_rows_by_id db pid) true).1 with
  | [] => Response.abort 404
  | pv :: _ => Response.renderPost pv (get_session_user db sess)

/-- Row INSERT INTO users (account_name, passhash) VALUES (%s, %s)
produces; the remaining columns take their schema defaults
(authority 0 = normal, del_flg 0 = active, spec section 3). -/
def regUser (digest : String → String) (account_name password : String) (next_id : Nat) : User :=
  { id := next_id
    account_name := account_name
    passhash := calculate_passhash digest account_name password
    authority := 0
    del_flg := 0
    created_at := 0 }

/-- post_register, POST /register (app.py lines 292-317).  Reads only the
account_name and password form fields - the csrf_token field is never
consulted.  `next_id` is the auto-increment id the INSERT would assign,
`fresh_token` the generated random CSRF token. -/
def post_register (digest : String → String) (db : DB) (sess : Session) (form : Form)
    (next_id : Nat) (fresh_token : String) : Response × DB × Session :=
  match get_session_user db sess with
  | some _ => (Response.redirect "/", db, sess)
  | none =>
    if validate_user form.account_name form.password = false then
      (Response.redirect "/register", db, sess)
    else if db.users.any (fun u => decide (u.account_name = form.account_name)) then
      (Response.redirect "/register", db, sess)
    else
      (Response.redirect "/",
       { db with users := db.users ++ [regUser digest form.account_name form.password next_id] },
       { user := some next_id, csrf_token := some fresh_token })

/-- post_login, POST /login (app.py lines 270-282).  Also never reads the
csrf_token form field.  The database is not written, so only the response
and the session are returned. -/
def post_login (digest : String → String) (db : DB) (sess : Session) (form : Form)
    (fresh_token : String) : Response × Session :=
  match get_session_user db sess with
  | some _ => (Response.redirect "/", sess)
  | none =>
    match try_login digest db form.account_name form.password with
    | some user => (Response.redirect "/", { user := some user.id, csrf_token := some fresh_token })
    | none => (Response.redirect "/login", sess)

/-- post_index, POST / (app.py lines 455-490): auth, CSRF, file presence,
mime whitelist, then reject iff the buffered size exceeds UPLOAD_LIMIT
(strictly greater), else INSERT the post and redirect to its page.
A session without a csrf_token key raises KeyError (500). -/
def post_index (db : DB) (sess : Session) (form : Form) (next_id : Nat) : Response × DB :=
  match get_session_user db sess with
  | none => (Response.redirect "/login", db)
  | some me =>
    match sess.csrf_token with
    | none => (Response.error "KeyError", db)
    | some stored =>
      if form.csrf_token ≠ stored then (Response.abort 422, db)
      else
        match form.file with
        | none => (Response.redirect "/", db)
        | some file =>
          if ¬ (file.mimetype = "image/jpeg" ∨ file.mimetype = "image/png" ∨ file.mimetype = "image/gif") then
            (Response.redirect "/", db)
          else if file.content.length > UPLOAD_LIMIT then
            (Response.redirect "/", db)
          else
            (Response.redirect ("/posts/" ++ toString next_id),
             { db with posts := db.posts ++
                 [{ id := next_id, user_id := me.id, mime := file.mimetype,
                    imgdata := file.content, body := form.body, created_at := 0 }] })

/-- ASCII whitespace as recognised by Python int(): 0x09-0x0d, 0x1c-0x1f and
0x20. -/
def isSpaceChar (c : Char) : Bool :=
  (decide (9 ≤ c.toNat) && decide (c.toNat ≤ 13)) ||
  (decide (28 ≤ c.toNat) && decide (c.toNat ≤ 32))

/-- Digit consumption of Python int() on a digit-led string: digit groups
separated by single underscores (the underscores are discarded), optionally
followed by trailing whitespace; anything else fails (ValueError, none).
So parse of "1_2" and of "12 " both yield 12 while "123abc", "1__2" and
"12 3" fail.  The embedding models form input over ASCII; Python would
additionally accept Unicode decimal digits and Unicode whitespace. -/
def parse_digits (acc : Nat) : List Char → Option Nat
  | [] => some acc
  | c :: cs =>
    if isDigitChar c = true then parse_digits (acc * 10 + (c.toNat - 48)) cs
    else if c = '_' then
      match cs with
      | [] => none
      | d :: cs2 =>
        if isDigitChar d = true then parse_digits (acc * 10 + (d.toNat - 48)) cs2 else none
    else if isSpaceChar c = true then
      if cs.all isSpaceChar then some acc else none
    else none

/-- Python int() on a form string.  post_comment only calls it after the
regex established that the first character is an ASCII digit, so the parse
starts at that digit (the guard returns none elsewhere; leading
whitespace/sign forms never reach int() in the handler). -/
def python_int (s : String) : Option Nat :=
  match s.toList with
  | [] => none
  | c :: cs => if isDigitChar c = true then parse_digits 0 (c :: cs) else none

/-- post_comment, POST /comment (app.py lines 519-539): auth, CSRF, then the
UNANCHORED regex re.match r[0-9]+ on post_id - it only requires the first
character to be a digit.  int(post_id) (modelled by python_int) then raises
ValueError (500) when the remainder is not a valid integer literal; note
that digit groups joined by underscores or followed by trailing whitespace
ARE valid and insert a comment.  On success the comment is inserted and the
handler redirects. -/
def post_comment (db : DB) (sess : Session) (form : Form) (next_id : Nat) : Response × DB :=
  match get_session_user db sess with
  | none => (Response.redirect "/login", db)
  | some me =>
    match sess.csrf_token with
    | none => (Response.error "KeyError", db)
    | some stored =>
      if form.csrf_token ≠ stored then (Response.abort 422, db)
      else if re_match_min isDigitChar 1 form.post_id = false then
        (Response.text "post_idは整数のみです", db)
      else
        match python_int form.post_id with
        | none => (Response.error "ValueError", db)
        | some pid =>
          (Response.redirect ("/posts/" ++ toString pid),
           { db with comments := db.comments ++
               [{ id := next_id, post_id := pid, user_id := me.id,
                  comment := form.comment, created_at := 0 }] })

/-- get_banned, GET /admin/banned (app.py lines 542-557).  The handler is
missing two returns: `flask.redirect("/login")` on line 546 is computed and
DISCARDED, so execution falls through to `me["authority"]`, which raises
TypeError when me is None; and the final `flask.render_template` result is
also discarded, so the view returns None and the framework errors. -/
def get_banned (db : DB) (sess : Session) : Response :=
  match get_session_user db sess with
  | none => Response.error "TypeError"
  | some me =>
    if me.authority = 0 then Response.abort 403
    else
      let _users := db.users.filter (fun u => decide (u.authority = 0) && decide (u.del_flg = 0))
      Response.error "view function returned None"

/-- post_banned, POST /admin/banned (app.py lines 560-576).  Same missing
return on the login redirect; authority is checked before the CSRF token;
then del_flg is set to 1 for each submitted uid in turn. -/
def post_banned (db : DB) (sess : Session) (form : Form) : Response × DB :=
  match get_session_user db sess with
  | none => (Response.error "TypeError", db)
  | some me =>
    if me.authority = 0 then (Response.abort 403, db)
    else
      match sess.csrf_token with
      | none => (Response.error "KeyError", db)
      | some stored =>
        if form.csrf_token ≠ stored then (Response.abort 422, db)
        else
          (Response.redirect "/admin/banned",
           { db with users :=
               (form.uid.foldl
                 (fun us i => us.map (fun u => if u.id = i then { u with del_flg := 1 } else u))
                 db.users) })

/-- Extension / stored-mime agreement checked by get_image
(app.py lines 506-513). -/
def ext_matches (ext mime : String) : Bool :=
  (decide (ext = "jpg") && decide (mime = "image/jpeg")) ||
  (decide (ext = "png") && decide (mime = "image/png")) ||
  (decide (ext = "gif") && decide (mime = "image/gif"))

/-- get_image, GET /image/[id].[ext] (app.py lines 493-516).  The id is
modelled after the int() conversion succeeded (the route string is nonempty,
so the `if not id` guard never fires).  id = 0 returns an empty 200 body.
`post = cursor.fetchone()` is NOT None-checked: a missing post makes
`post["mime"]` raise TypeError (500).  For a stored post the bytes are served
iff the extension agrees with the stored mime, otherwise 404. -/
def get_image (db : DB) (pid : Nat) (ext : String) : Response :=
  if pid = 0 then Response.text ""
  else
    match db.posts.find? (fun p => decide (p.id = pid)) with
    | none => Response.error "TypeError"
    | some post =>
      if ext_matches ext post.mime then Response.imageData post.mime post.imgdata
      else Response.abort 404

/-! Concrete sample data used by counterexamples and witnesses. -/

/-- Concrete stand-in for the external sha512 digest (any function works,
the handlers only compare its outputs). -/
def digest0 : String → String := fun s => "H" ++ s

def dbEmpty : DB := { users := [], posts := [], comments := [] }

def uBanned : User :=
  { id := 1, account_name := "bob", passhash := "h", authority := 0, del_flg := 1, created_at := 0 }

def dbC1 : DB := { users := [uBanned], posts := [], comments := [] }

def uNormal : User :=
  { id := 1, account_name := "alice01", passhash := "h", authority := 0, del_flg := 0, created_at := 0 }

def uAdmin : User :=
  { id := 2, account_name := "admin1", passhash := "h", authority := 1, del_flg := 0, created_at := 0 }

def p1 : Post :=
  { id := 1, user_id := 1, mime := "image/png", imgdata := [1, 2, 3], body := "hello", created_at := 0 }

def dbTwo : DB := { users := [uNormal, uAdmin], posts := [p1], comments := [] }

def sessNone : Session := { user := none, csrf_token := none }

def sessAnonTok : Session := { user := none, csrf_token := some "tok" }

def sessUser1 : Session := { user := some 1, csrf_token := some "tok" }

def sessAdmin : Session := { user := some 2, csrf_token := some "tok" }

def formBase : Form :=
  { csrf_token := "tok", account_name := "", password := "", post_id := "", comment := "",
    body := "", file := none, uid := [] }

/-! Claim C1. -/

/-- C1 counterexample: a session pointing at a user with del_flg = 1 still
resolves to that user row - get_session_user has no del_flg filter, so the
claim that it returns none for a deleted user is false. -/
theorem C1_counterexample :
    get_session_user dbC1 { user := some 1, csrf_token := none } = some uBanned ∧
    uBanned.del_flg ≠ 0 := by decide

/-- C1 (amended): get_session_user returns none when the session holds no
user and when the id lookup misses, and otherwise returns the stored row with
the session's user id REGARDLESS of its del_flg: any matching row, deleted or
not, is returned. -/
theorem C1_session_user (db : DB) (sess : Session) (uid : Nat) :
    (sess.user = none → get_session_user db sess = none) ∧
    (sess.user = some uid → db.users.find? (fun u => decide (u.id = uid)) = none →
       get_session_user db sess = none) ∧
    (sess.user = some uid → ∀ u, get_session_user db sess = some u → u ∈ db.users ∧ u.id = uid) ∧
    (sess.user = some uid → (∃ u, u ∈ db.users ∧ u.id = uid) →
       ∃ v, get_session_user db sess = some v ∧ v.id = uid) := by
  refine ⟨?_, ?_, ?_, ?_⟩
  · intro h; simp [get_session_user, h]
  · intro h hf; simp [get_session_user, h, hf]
  · intro h u hu
    simp only [get_session_user, h] at hu
    have hp := List.find?_some hu
    simp only [decide_eq_true_eq] at hp
    exact ⟨List.mem_of_find?_eq_some hu, hp⟩
  · rintro h ⟨u, hmem, hid⟩
    have hs : (db.users.find? (fun u => decide (u.id = uid))).isSome := by
      rw [List.find?_isSome]; exact ⟨u, hmem, by simp [hid]⟩
    obtain ⟨v, hv⟩ := Option.isSome_iff_exists.mp hs
    have hp := List.find?_some hv
    simp only [decide_eq_true_eq] at hp
    exact ⟨v, by simp [get_session_user, h, hv], hp⟩

theorem C1_witness :
    ∃ v, get_session_user dbC1 { user := some 1, csrf_token := none } = some v ∧ v.id = 1 :=
  (C1_session_user dbC1 { user := some 1, csrf_token := none } 1).2.2.2 rfl
    ⟨uBanned, by decide, by decide⟩

/-! Claim C2. -/

def formRegBadTok : Form :=
  { formBase with csrf_token := "WRONG", account_name := "alice01", password := "secret123" }

/-- C2 counterexample: POST /register with a submitted csrf_token that does
not match the session's stored token is NOT rejected with 422 - the handler
never reads the token, registers the user and mutates the store. -/
theorem C2_counterexample :
    sessAnonTok.csrf_token = some "tok" ∧
    formRegBadTok.csrf_token ≠ "tok" ∧
    (post_register digest0 dbEmpty sessAnonTok formRegBadTok 1 "fresh").1 = Response.redirect "/" ∧
    (post_register digest0 dbEmpty sessAnonTok formRegBadTok 1 "fresh").2.1 ≠ dbEmpty := by decide

/-- C2 (amended): of the state-changing handlers only POST /, POST /comment
and POST /admin/banned compare the submitted csrf_token with the session's
token; each aborts with 422 on mismatch leaving the store untouched.
POST /register and POST /login perform no CSRF comparison at all: their
results are independent of the submitted csrf_token field. -/
theorem C2_csrf (digest : String → String) (db : DB) (sess : Session) (form : Form)
    (next_id : Nat) (me : User) (stored c : String)
    (hme : get_session_user db sess = some me)
    (ht : sess.csrf_token = some stored)
    (hbad : form.csrf_token ≠ stored)
    (hauth : me.authority ≠ 0) :
    post_index db sess form next_id = (Response.abort 422, db) ∧
    post_comment db sess form next_id = (Response.abort 422, db) ∧
    post_banned db sess form = (Response.abort 422, db) ∧
    (∀ db2 sess2 nid fresh, post_register digest db2 sess2 { form with csrf_token := c } nid fresh =
        post_register digest db2 sess2 form nid fresh) ∧
    (∀ db2 sess2 fresh, post_login digest db2 sess2 { form with csrf_token := c } fresh =
        post_login digest db2 sess2 form fresh) := by
  refine ⟨?_, ?_, ?_, ?_, ?_⟩
  · simp [post_index, hme, ht, hbad]
  · simp [post_comment, hme, ht, hbad]
  · simp [post_banned, hme, ht, hbad, hauth]
  · intro db2 sess2 nid fresh; rfl
  · intro db2 sess2 fresh; rfl

def formBadTok : Form := { formBase with csrf_token := "BAD" }

theorem C2_witness :
    post_index dbTwo sessAdmin formBadTok 5 = (Response.abort 422, dbTwo) ∧
    post_comment dbTwo sessAdmin formBadTok 5 = (Response.abort 422, dbTwo) ∧
    post_banned dbTwo sessAdmin formBadTok = (Response.abort 422, dbTwo) := by
  have h := C2_csrf digest0 dbTwo sessAdmin formBadTok 5 uAdmin "tok" "x"
    (by decide) (by decide) (by decide) (by decide)
  exact ⟨h.1, h.2.1, h.2.2.1⟩

/-! Claim C3. -/

/-- C3: evaluation of the admin endpoints at the failing input.  With no
session the handlers do NOT redirect to the login page: the redirect on lines
546 and 564 is computed but not returned, so execution reaches
me["authority"] with me = None and raises TypeError (a 500), although no user
row is updated.  The authority = 0 path does abort with 403 as claimed. -/
theorem C3_code_eval :
    get_banned dbTwo sessNone = Response.error "TypeError" ∧
    post_banned dbTwo sessNone formBase = (Response.error "TypeError", dbTwo) ∧
    get_banned dbTwo sessUser1 = Response.abort 403 ∧
    post_banned dbTwo sessUser1 formBase = (Response.abort 403, dbTwo) := by decide

/-! Claim C4. -/

/-- C4 counterexample: dbTwo stores no post with id 5, yet GET /image/5.jpg
does not respond 404 - `post["mime"]` is evaluated on the missed fetch and
raises TypeError (a 500). -/
theorem C4_counterexample :
    get_image dbTwo 5 "jpg" = Response.error "TypeError" ∧
    Response.error "TypeError" ≠ Response.abort 404 := by decide

/-- C4 (amended): for a nonzero id with a stored post, the bytes are served
with the stored mime iff the requested extension matches it - both
directions: a serve implies a stored matching post, and a stored matching
post is served - while a mismatch responds 404; a nonzero id with NO stored
post raises an unhandled TypeError (500), not 404; id 0 returns an empty 200
body. -/
theorem C4_image (db : DB) (pid : Nat) (ext : String) :
    (∀ mime data, get_image db pid ext = Response.imageData mime data →
       ∃ post, db.posts.find? (fun p => decide (p.id = pid)) = some post ∧
         post.mime = mime ∧ post.imgdata = data ∧ ext_matches ext mime = true) ∧
    (∀ post, pid ≠ 0 → db.posts.find? (fun p => decide (p.id = pid)) = some post →
       ext_matches ext post.mime = true →
       get_image db pid ext = Response.imageData post.mime post.imgdata) ∧
    (∀ post, pid ≠ 0 → db.posts.find? (fun p => decide (p.id = pid)) = some post →
       ext_matches ext post.mime = false → get_image db pid ext = Response.abort 404) ∧
    (pid ≠ 0 → db.posts.find? (fun p => decide (p.id = pid)) = none →
       get_image db pid ext = Response.error "TypeError") ∧
    (pid = 0 → get_image db pid ext = Response.text "") := by
  refine ⟨?_, ?_, ?_, ?_, ?_⟩
  · intro mime data h
    unfold get_image at h
    by_cases h0 : pid = 0
    · rw [if_pos h0] at h; exact absurd h (by simp)
    · rw [if_neg h0] at h
      cases hf : db.posts.find? (fun p => decide (p.id = pid)) with
      | none => rw [hf] at h; exact absurd h (by simp)
      | some post =>
        rw [hf] at h
        have h' : (if ext_matches ext post.mime = true then
            Response.imageData post.mime post.imgdata else Response.abort 404) =
            Response.imageData mime data := h
        by_cases hm : ext_matches ext post.mime = true
        · rw [if_pos hm] at h'
          injection h' with h1 h2
          exact ⟨post, rfl, h1, h2, h1 ▸ hm⟩
        · rw [if_neg hm] at h'; exact absurd h' (by simp)
  · intro post h0 hf hm
    simp [get_image, h0, hf, hm]
  · intro post h0 hf hm
    simp [get_image, h0, hf, hm]
  · intro h0 hf
    simp [get_image, h0, hf]
  · intro h0
    simp [get_image, h0]

theorem C4_witness :
    get_image dbTwo 1 "png" = Response.imageData "image/png" [1, 2, 3] ∧
    get_image dbTwo 1 "jpg" = Response.abort 404 :=
  ⟨(C4_image dbTwo 1 "png").2.1 p1 (by decide) (by decide) (by decide),
   (C4_image dbTwo 1 "jpg").2.2.1 p1 (by decide) (by decide) (by decide)⟩

/-! Claim C5. -/

example : python_int "1_2" = some 12 := by decide
example : python_int "12 " = some 12 := by decide
example : python_int "123abc" = none := by decide
example : python_int "1__2" = none := by decide
example : python_int "12 3" = none := by decide

def formBadName : Form :=
  { formBase with account_name := "abc!", password := "secret123" }

/-- C6 counterexample: the account name "abc!" is not all-alphanumeric, yet
validate_user accepts it (the regex has no end anchor) and registration
succeeds, inserting a user row - the claim that registration succeeds only
for all-alphanumeric names is false. -/
theorem C6_counterexample :
    validate_user "abc!" "secret123" = true ∧
    "abc!".toList.all isAlnumChar = false ∧
    (post_register digest0 dbEmpty sessNone formBadName 1 "f").1 = Response.redirect "/" ∧
    (post_register digest0 dbEmpty sessNone formBadName 1 "f").2.1 ≠ dbEmpty := by decide

/-- C6 (amended): validation only constrains a PREFIX - it requires at least
3 characters with the first 3 alphanumeric, and at least 6 password
characters with the first 6 in [0-9a-zA-Z_]; later characters are
unconstrained (unanchored regexes).  On validation failure (and on a
duplicate name) the handler redirects back with a message and commits no
state: no row is inserted and the session is untouched.  When validation
passes and the name is free, the row is inserted and the session is
established. -/
theorem C6_register (digest : String → String) (db : DB) (sess : Session) (form : Form)
    (next_id : Nat) (fresh_token : String)
    (hanon : get_session_user db sess = none) :
    (validate_user form.account_name form.password = true ↔
       (3 ≤ form.account_name.length ∧
        (form.account_name.toList.take 3).all isAlnumChar = true ∧
        6 ≤ form.password.length ∧
        (form.password.toList.take 6).all isPassChar = true)) ∧
    (validate_user form.account_name form.password = false →
       post_register digest db sess form next_id fresh_token =
         (Response.redirect "/register", db, sess)) ∧
    (validate_user form.account_name form.password = true →
     db.users.any (fun u => decide (u.account_name = form.account_name)) = true →
       post_register digest db sess form next_id fresh_token =
         (Response.redirect "/register", db, sess)) ∧
    (validate_user form.account_name form.password = true →
     db.users.any (fun u => decide (u.account_name = form.account_name)) = false →
       post_register digest db sess form next_id fresh_token =
         (Response.redirect "/",
          { db with users := db.users ++ [regUser digest form.account_name form.password next_id] },
          { user := some next_id, csrf_token := some fresh_token })) := by
  refine ⟨?_, ?_, ?_, ?_⟩
  · unfold validate_user re_match_min
    simp only [Bool.and_eq_true, decide_eq_true_eq]
    tauto
  · intro hv
    simp [post_register, hanon, hv]
  · intro hv hdup
    simp [post_register, hanon, hv, hdup]
  · intro hv hdup
    simp [post_register, hanon, hv, hdup]

def formGoodName : Form :=
  { formBase with account_name := "alice01", password := "secret123" }

theorem C6_witness :
    post_register digest0 dbEmpty sessNone formGoodName 1 "f" =
      (Response.redirect "/",
       { dbEmpty with users := dbEmpty.users ++ [regUser digest0 "alice01" "secret123" 1] },
       { user := some 1, csrf_token := some "f" }) :=
  (C6_register digest0 dbEmpty sessNone formGoodName 1 "f" rfl).2.2.2 (by decide) (by decide)

/-! Claim C7. -/

theorem build_view_post (db : DB) (results : List Post) (ac : Bool) (p : Post) :
    (build_view db results ac p).post = p := rfl

theorem keep_post_spec (pv : PostView) (h : keep_post pv = true) :
    ∃ u, pv.user = some u ∧ u.del_flg = 0 := by
  unfold keep_post at h
  cases hu : pv.user with
  | none => rw [hu] at h; simp at h
  | some u =>
    rw [hu] at h
    simp only [decide_eq_true_eq] at h
    exact ⟨u, rfl, h⟩

theorem make_posts_fst (db : DB) (results : List Post) (ac : Bool) :
    (make_posts db results ac).1 = (results.map (build_view db results ac)).filter keep_post := by
  cases results with
  | nil => rfl
  | cons a l => rfl

theorem make_posts_live (db : DB) (results : List Post) (ac : Bool) (pv : PostView)
    (h : pv ∈ (make_posts db results ac).1) : ∃ u, pv.user = some u ∧ u.del_flg = 0 := by
  rw [make_posts_fst] at h
  exact keep_post_spec pv (List.mem_filter.mp h).2

theorem make_posts_order (db : DB) (results : List Post) (ac : Bool) :
    List.Sublist ((make_posts db results ac).1.map PostView.post) results := by
  rw [make_posts_fst, List.filter_map, List.map_map]
  have hid : PostView.post ∘ build_view db results ac = id := funext (fun p => rfl)
  rw [hid, List.map_id]
  exact List.filter_sublist results

/-- C7: every view make_posts outputs carries an owner row that was found in
the batch-fetched user map and has del_flg = 0; the underlying posts appear
in exactly the input order (a sublist of the input); and GET /posts/[id]
never renders a post view whose owner is missing or soft-deleted. -/
theorem C7_deleted_owner_filter (db : DB) (results : List Post) (ac : Bool)
    (sess : Session) (pid : Nat) (pv : PostView) (me : Option User) :
    (∀ v, v ∈ (make_posts db results ac).1 → ∃ u, v.user = some u ∧ u.del_flg = 0) ∧
    List.Sublist ((make_posts db results ac).1.map PostView.post) results ∧
    (get_posts_id db sess pid = Response.renderPost pv me →
       ∃ u, pv.user = some u ∧ u.del_flg = 0) := by
  refine ⟨fun v hv => make_posts_live db results ac v hv, make_posts_order db results ac, ?_⟩
  intro h
  unfold get_posts_id at h
  cases hm : (make_posts db (post_rows_by_id db pid) true).1 with
  | nil => rw [hm] at h; exact absurd h (by simp)
  | cons a l =>
    rw [hm] at h
    have h' : Response.renderPost a (get_session_user db sess) = Response.renderPost pv me := h
    injection h' with h1 h2
    have hmem : a ∈ (make_posts db (post_rows_by_id db pid) true).1 := by
      rw [hm]; exact List.mem_cons_self a l
    exact h1 ▸ make_posts_live db (post_rows_by_id db pid) true a hmem

def pvSample : PostView := { post := p1, user := some uNormal, comments := [], comment_count := 0 }

theorem C7_witness : ∃ u, pvSample.user = some u ∧ u.del_flg = 0 :=
  (C7_deleted_owner_filter dbTwo [] true sessNone 1 pvSample none).2.2 (by decide)

/-! Claim C9. -/

/-- C9: make_posts issues at most 3 storage queries whatever the input (in
fact at most 2: one comment query plus at most one user query), and on an
empty input it returns the empty list having issued no query at all. -/
theorem C9_query_budget (db : DB) (results : List Post) (ac : Bool) :
    (make_posts db results ac).2 ≤ 3 ∧ make_posts db [] ac = ([], 0) := by
  constructor
  · show make_posts_query_count db results ac ≤ 3
    unfold make_posts_query_count
    split
    · exact Nat.zero_le 3
    · split <;> omega
  · rfl

/-! Claim C8. -/

/-- Database state right after a successful registration. -/
def after_register (digest : String → String) (db : DB) (an pw : String) (next_id : Nat) : DB :=
  { db with users := db.users ++ [regUser digest an pw next_id] }

/-- C8: for credentials passing validation, with a fresh account name and a
fresh auto-increment id, registration stores exactly the passhash
digest(password ++ ":" ++ digest(account_name)) and establishes a session on
the new id; a subsequent login from a fresh anonymous session recomputes the
same hash, accepts, and establishes a session resolving to the same user
id. -/
theorem C8_register_login (digest : String → String) (db : DB) (sess : Session) (form : Form)
    (an pw : String) (next_id : Nat) (fresh fresh2 : String)
    (hform_a : form.account_name = an) (hform_p : form.password = pw)
    (hanon : get_session_user db sess = none)
    (hvalid : validate_user an pw = true)
    (hname : db.users.any (fun u => decide (u.account_name = an)) = false)
    (hid : db.users.all (fun u => decide (u.id ≠ next_id)) = true) :
    post_register digest db sess form next_id fresh =
      (Response.redirect "/", after_register digest db an pw next_id,
       { user := some next_id, csrf_token := some fresh }) ∧
    (regUser digest an pw next_id).passhash = digest (pw ++ ":" ++ digest an) ∧
    try_login digest (after_register digest db an pw next_id) an pw =
      some (regUser digest an pw next_id) ∧
    post_login digest (after_register digest db an pw next_id)
        { user := none, csrf_token := none } form fresh2 =
      (Response.redirect "/", { user := some next_id, csrf_token := some fresh2 }) ∧
    get_session_user (after_register digest db an pw next_id)
        { user := some next_id, csrf_token := some fresh2 } =
      some (regUser digest an pw next_id) := by
  subst hform_a
  subst hform_p
  have hfind : (db.users ++ [regUser digest form.account_name form.password next_id]).find?
      (fun u => decide (u.account_name = form.account_name) && decide (u.del_flg = 0)) =
      some (regUser digest form.account_name form.password next_id) := by
    rw [List.find?_append]
    have h1 : db.users.find?
        (fun u => decide (u.account_name = form.account_name) && decide (u.del_flg = 0)) = none := by
      rw [List.find?_eq_none]
      intro u hu hp
      have h2 := List.any_eq_false.mp hname u hu
      simp only [Bool.and_eq_true, decide_eq_true_eq] at hp
      simp only [decide_eq_true_eq] at h2
      exact h2 hp.1
    rw [h1]
    simp [List.find?_cons, regUser]
  have hlogin : try_login digest (after_register digest db form.account_name form.password next_id)
      form.account_name form.password =
      some (regUser digest form.account_name form.password next_id) := by
    unfold try_login after_register
    rw [hfind]
    simp [regUser]
  have hsess : get_session_user (after_register digest db form.account_name form.password next_id)
      { user := some next_id, csrf_token := some fresh2 } =
      some (regUser digest form.account_name form.password next_id) := by
    show (db.users ++ [regUser digest form.account_name form.password next_id]).find?
        (fun u => decide (u.id = next_id)) =
        some (regUser digest form.account_name form.password next_id)
    rw [List.find?_append]
    have h1 : db.users.find? (fun u => decide (u.id = next_id)) = none := by
      rw [List.find?_eq_none]
      intro u hu hp
      have h2 := List.all_eq_true.mp hid u hu
      simp only [decide_eq_true_eq] at hp h2
      exact h2 hp
    rw [h1]
    simp [List.find?_cons, regUser]
  refine ⟨?_, rfl, hlogin, ?_, hsess⟩
  · simp [post_register, hanon, hvalid, hname, after_register]
  · unfold post_login
    have h0 : get_session_user (after_register digest db form.account_name form.password next_id)
        { user := none, csrf_token := none } = none := rfl
    rw [h0, hlogin]
    rfl

theorem C8_witness :
    post_register digest0 dbEmpty sessNone formGoodName 1 "t1" =
      (Response.redirect "/", after_register digest0 dbEmpty "alice01" "secret123" 1,
       { user := some 1, csrf_token := some "t1" }) ∧
    (regUser digest0 "alice01" "secret123" 1).passhash =
      digest0 ("secret123" ++ ":" ++ digest0 "alice01") ∧
    try_login digest0 (after_register digest0 dbEmpty "alice01" "secret123" 1)
      "alice01" "secret123" = some (regUser digest0 "alice01" "secret123" 1) ∧
    post_login digest0 (after_register digest0 dbEmpty "alice01" "secret123" 1)
        { user := none, csrf_token := none } formGoodName "t2" =
      (Response.redirect "/", { user := some 1, csrf_token := some "t2" }) ∧
    get_session_user (after_register digest0 dbEmpty "alice01" "secret123" 1)
        { user := some 1, csrf_token := some "t2" } =
      some (regUser digest0 "alice01" "secret123" 1) :=
  C8_register_login digest0 dbEmpty sessNone formGoodName "alice01" "secret123" 1 "t1" "t2"
    rfl rfl rfl (by decide) (by decide) (by decide)

/-! Claim C10. -/

/-- C10: for an authenticated, CSRF-valid upload with a whitelisted mime
type, a file strictly larger than UPLOAD_LIMIT = 10 MiB is rejected with a
flash redirect and no Post row is created, while a file of size at most the
limit - the boundary case included - is accepted and the Post row is
inserted. -/
theorem C10_upload_limit (db : DB) (sess : Session) (form : Form) (next_id : Nat)
    (me : User) (stored : String) (file : FileUpload)
    (hme : get_session_user db sess = some me)
    (ht : sess.csrf_token = some stored)
    (hok : form.csrf_token = stored)
    (hfile : form.file = some file)
    (hmime : file.mimetype = "image/jpeg" ∨ file.mimetype = "image/png" ∨ file.mimetype = "image/gif") :
    (file.content.length > UPLOAD_LIMIT →
       post_index db sess form next_id = (Response.redirect "/", db)) ∧
    (file.content.length ≤ UPLOAD_LIMIT →
       post_index db sess form next_id =
         (Response.redirect ("/posts/" ++ toString next_id),
          { db with posts := db.posts ++
              [{ id := next_id, user_id := me.id, mime := file.mimetype,
                 imgdata := file.content, body := form.body, created_at := 0 }] })) := by
  have hmime2 : ¬ ¬ (file.mimetype = "image/jpeg" ∨ file.mimetype = "image/png" ∨
      file.mimetype = "image/gif") := not_not_intro hmime
  constructor
  · intro hbig
    simp [post_index, hme, ht, hok, hfile, hmime2, hbig]
  · intro hsmall
    have hnot : ¬ (file.content.length > UPLOAD_LIMIT) := not_lt.mpr hsmall
    simp [post_index, hme, ht, hok, hfile, hmime2, hnot]

def fileMax : FileUpload := { mimetype := "image/png", content := List.replicate UPLOAD_LIMIT 0 }

def formUp : Form := { formBase with file := some fileMax }

theorem C10_witness :
    post_index dbTwo sessUser1 formUp 9 =
      (Response.redirect ("/posts/" ++ toString 9),
       { dbTwo with posts := dbTwo.posts ++
           [{ id := 9, user_id := uNormal.id, mime := fileMax.mimetype,
              imgdata := fileMax.content, body := formUp.body, created_at := 0 }] }) :=
  (C10_upload_limit dbTwo sessUser1 formUp 9 uNormal "tok" fileMax
    (by decide) rfl rfl rfl (Or.inr (Or.inl rfl))).2
    (by simp [fileMax])
